import Mathlib

/-!
Verification of the action-dispatch and field-projection layer of the
GPlay Scraper web/desktop front ends.

Shallow embedding of:
  * `src/api/index.py`   — the serverless dispatch handler (`handler`,
    `_parse_fields`, `_parse_int`, `_handle_app`, `_handle_search`,
    `_handle_reviews`, `_handle_developer`, `ACTION_MAP`,
    `_build_response`);
  * `src/examples/ui_app.py` — the Tkinter front end's field splitting,
    "Get Fields" guards and the `_run_async` worker/callback bridge.

The external scraper (`gplay_scraper.GPlayScraper`) is out of scope and is
modelled as an opaque function from a call descriptor to either a payload
or a raised exception.  Every dispatch returns, alongside the response,
the list of scraper calls it issued, so that "no external call" /
"exactly one external call" properties are statable.

Python-level conventions reproduced here:
  * `dict.get(k)` / `dict.get(k, d)` — `Option` lookup and `Option.getD`;
  * string truthiness (`if not s:`) — absent or empty is falsy;
  * `str.strip()` — trims ASCII whitespace from both ends (the model
    covers the ASCII whitespace characters; the claims only involve
    ASCII input);
  * `int(s)` — strips whitespace, optional sign, base-10 digits with
    single underscores allowed between digits, else raises `ValueError`
    (modelled as `none`); the model covers ASCII digits;
  * `str.lower()` — modelled on ASCII letters.
-/

/-- Characters stripped by Python `str.strip()` (ASCII fragment):
space, tab, newline, carriage return, vertical tab, form feed. -/
def isPyWhitespaceChar (c : Char) : Bool :=
  c = ' ' || c = '\t' || c = '\n' || c = '\r' || c = '\x0b' || c = '\x0c'

/-- Python `str.strip()`: drop leading and trailing whitespace. -/
def pyStrip (s : String) : String :=
  String.mk (((s.toList.dropWhile isPyWhitespaceChar).reverse.dropWhile
      isPyWhitespaceChar).reverse)

/-- Digit tail of a Python integer literal: digits with single
underscores allowed only between digits (`1_2` is valid, `1__2`, `1_`
are not); accumulates the base-10 value. -/
def pyDigitsCore : List Char → Nat → Option Nat
  | [], acc => some acc
  | ['_'], _ => none
  | '_' :: c :: rest, acc =>
      if c.isDigit then pyDigitsCore rest (acc * 10 + (c.toNat - 48)) else none
  | c :: rest, acc =>
      if c.isDigit then pyDigitsCore rest (acc * 10 + (c.toNat - 48)) else none

/-- A non-empty Python digit sequence (must start with a digit). -/
def pyDigits : List Char → Option Nat
  | [] => none
  | c :: rest => if c.isDigit then pyDigitsCore rest (c.toNat - 48) else none

/-- Python `int(s)` for base 10: strip whitespace, optional sign, digits;
`none` models a raised `ValueError`. -/
def pyInt (s : String) : Option Int :=
  match (pyStrip s).toList with
  | '+' :: rest => (pyDigits rest).map (fun n => (n : Int))
  | '-' :: rest => (pyDigits rest).map (fun n => -(n : Int))
  | cs => (pyDigits cs).map (fun n => (n : Int))

/-- Python `str.lower()` on one ASCII character. -/
def pyLowerChar (c : Char) : Char :=
  if 65 ≤ c.toNat ∧ c.toNat ≤ 90 then Char.ofNat (c.toNat + 32) else c

/-- Python `str.lower()` (ASCII fragment). -/
def pyLower (s : String) : String :=
  String.mk (s.toList.map pyLowerChar)

/-- Python `str.split(sep)` for a one-character separator, on character
lists: splitting the empty string yields one empty segment, and every
occurrence of the separator ends a segment. -/
def pySplitChar (sep : Char) : List Char → List (List Char)
  | [] => [[]]
  | c :: rest =>
    match pySplitChar sep rest with
    | [] => [[c]]
    | h :: t => if c = sep then [] :: h :: t else (c :: h) :: t

/-- Python `s.split(sep)` for a one-character separator. -/
def pySplit (s : String) (sep : Char) : List String :=
  (pySplitChar sep s.toList).map String.mk

/-- Python truthiness of an `Optional[str]`: `None` and `""` are falsy. -/
def pyTruthyStr : Option String → Bool
  | none => false
  | some s => !(s == "")

/-- Python truthiness of a list: empty is falsy. -/
def pyTruthyList {α : Type} (l : List α) : Bool :=
  !l.isEmpty

/-- Python `x or None` on an `Optional[str]`. -/
def pyOrNone : Option String → Option String
  | none => none
  | some s => if s = "" then none else some s

/-- Query-string arguments: `request.args` — a lookup from parameter
name to raw string value (`args.get(k)`). -/
structure Args where
  get : String → Option String

/-- Build `Args` from explicit key/value pairs (first match wins, like a
Python dict built from distinct keys). -/
def Args.ofList (l : List (String × String)) : Args :=
  ⟨fun k => (l.find? (fun p => p.1 == k)).map Prod.snd⟩

/-- Override one key (used to state how dispatch treats the `action`
parameter). -/
def Args.set (a : Args) (k v : String) : Args :=
  ⟨fun q => if q = k then some v else a.get q⟩

/-- Structured JSON value: payloads returned by the scraper and response
bodies built by the handler. -/
inductive Json where
  | null : Json
  | bool (b : Bool) : Json
  | num (n : Int) : Json
  | str (s : String) : Json
  | arr (elems : List Json) : Json
  | obj (entries : List (String × Json)) : Json

/-- `src/api/index.py::_parse_fields` — `if not raw: return []` then
split on commas, strip each segment, drop falsy (empty) segments. -/
def _parse_fields (raw : Option String) : List String :=
  match raw with
  | none => []
  | some s =>
    if s = "" then []
    else ((pySplit s ',').map pyStrip).filter (fun t => t ≠ "")

/-- `src/api/index.py::_parse_int` — `if not value: return default`,
then `int(value)` with `ValueError` falling back to the default. -/
def _parse_int (value : Option String) (default : Int) : Int :=
  match value with
  | none => default
  | some s =>
    if s = "" then default
    else
      match pyInt s with
      | some n => n
      | none => default

/-- The configuration constants read from `gplay_scraper.config.Config`
(an external collaborator; the dispatch layer only reads these values,
so they are threaded in as data). -/
structure Config where
  DEFAULT_LANGUAGE : String
  DEFAULT_COUNTRY : String
  DEFAULT_SEARCH_COUNT : Int
  DEFAULT_REVIEWS_COUNT : Int
  DEFAULT_DEVELOPER_COUNT : Int
  DEFAULT_REVIEWS_SORT : String
deriving DecidableEq

/-- A call issued to the external scraper: one constructor per method of
`GPlayScraper` used by the dispatch layer, with the exact arguments the
Python code passes. -/
inductive ScraperCall where
  | appAnalyze (appId lang country : String) (assets : Option String)
  | appGetFields (appId : String) (fields : List String)
      (lang country : String) (assets : Option String)
  | searchAnalyze (query : String) (count : Int) (lang country : String)
  | searchGetFields (query : String) (fields : List String) (count : Int)
      (lang country : String)
  | reviewsAnalyze (appId : String) (count : Int) (lang country sort : String)
  | reviewsGetFields (appId : String) (fields : List String) (count : Int)
      (lang country sort : String)
  | developerAnalyze (developerId : String) (count : Int) (lang country : String)
  | developerGetFields (developerId : String) (fields : List String)
      (count : Int) (lang country : String)
deriving DecidableEq

/-- A Python exception escaping the scraper: either the library's domain
error `GPlayScraperError` or any other `Exception`. -/
inductive PyError where
  | gplayScraperError (msg : String)
  | otherError (msg : String)
deriving DecidableEq

/-- The external scraper, modelled as an opaque behaviour: each call
either returns a payload or raises. -/
abbrev Scraper := ScraperCall → Except PyError Json

/-- `JsonDict` of `src/api/index.py`: a JSON object body. -/
abbrev JsonDict := List (String × Json)

/-- `HandlerResult` of `src/api/index.py`: `(status, payload)`. -/
abbrev HandlerResult := Int × JsonDict

/-- Whether a scraper call is a selective (get-fields) operation. -/
def ScraperCall.isGetFields : ScraperCall → Bool
  | appGetFields _ _ _ _ _ => true
  | searchGetFields _ _ _ _ _ => true
  | reviewsGetFields _ _ _ _ _ _ => true
  | developerGetFields _ _ _ _ _ => true
  | _ => false

/-- The fields list passed to a selective call (`none` for full-analysis
calls). -/
def ScraperCall.fieldsArg : ScraperCall → Option (List String)
  | appGetFields _ f _ _ _ => some f
  | searchGetFields _ f _ _ _ => some f
  | reviewsGetFields _ f _ _ _ _ => some f
  | developerGetFields _ f _ _ _ => some f
  | _ => none

/-- The count passed to a scraper call (`none` for the app action, which
takes no count). -/
def ScraperCall.countArg : ScraperCall → Option Int
  | searchAnalyze _ c _ _ => some c
  | searchGetFields _ _ c _ _ => some c
  | reviewsAnalyze _ c _ _ _ => some c
  | reviewsGetFields _ _ c _ _ _ => some c
  | developerAnalyze _ c _ _ => some c
  | developerGetFields _ _ c _ _ => some c
  | _ => none

/-- The language passed to a scraper call (every call carries one). -/
def ScraperCall.langArg : ScraperCall → String
  | appAnalyze _ l _ _ => l
  | appGetFields _ _ l _ _ => l
  | searchAnalyze _ _ l _ => l
  | searchGetFields _ _ _ l _ => l
  | reviewsAnalyze _ _ l _ _ => l
  | reviewsGetFields _ _ _ l _ _ => l
  | developerAnalyze _ _ l _ => l
  | developerGetFields _ _ _ l _ => l

/-- The country passed to a scraper call. -/
def ScraperCall.countryArg : ScraperCall → String
  | appAnalyze _ _ c _ => c
  | appGetFields _ _ _ c _ => c
  | searchAnalyze _ _ _ c => c
  | searchGetFields _ _ _ _ c => c
  | reviewsAnalyze _ _ _ c _ => c
  | reviewsGetFields _ _ _ _ c _ => c
  | developerAnalyze _ _ _ c => c
  | developerGetFields _ _ _ _ c => c

/-- The sort order passed to a reviews call (`none` for other actions). -/
def ScraperCall.sortArg : ScraperCall → Option String
  | reviewsAnalyze _ _ _ _ s => some s
  | reviewsGetFields _ _ _ _ _ s => some s
  | _ => none

/-- The asset-size filter passed to an app call (`none` for other
actions; `some none` is an app call with no filter). -/
def ScraperCall.assetsArg : ScraperCall → Option (Option String)
  | appAnalyze _ _ _ a => some a
  | appGetFields _ _ _ _ a => some a
  | _ => none

/-- `src/api/index.py::_handle_app`, with the issued scraper calls
recorded alongside the result; a raised scraper exception propagates to
the caller as `Except.error`. -/
def _handle_app (cfg : Config) (scraper : Scraper) (args : Args) :
    Except PyError HandlerResult × List ScraperCall :=
  if pyTruthyStr (args.get "appId") = false then
    (Except.ok (400, [("error", Json.str "Missing required 'appId' parameter.")]), [])
  else
    let app_id := (args.get "appId").getD ""
    let lang := (args.get "lang").getD cfg.DEFAULT_LANGUAGE
    let country := (args.get "country").getD cfg.DEFAULT_COUNTRY
    let assets := pyOrNone (args.get "assets")
    let fields := _parse_fields (args.get "fields")
    let call :=
      if pyTruthyList fields then
        ScraperCall.appGetFields app_id fields lang country assets
      else
        ScraperCall.appAnalyze app_id lang country assets
    ((match scraper call with
      | Except.ok data => Except.ok (200, [("data", data)])
      | Except.error e => Except.error e), [call])

/-- `src/api/index.py::_handle_search`. -/
def _handle_search (cfg : Config) (scraper : Scraper) (args : Args) :
    Except PyError HandlerResult × List ScraperCall :=
  if pyTruthyStr (args.get "query") = false then
    (Except.ok (400, [("error", Json.str "Missing required 'query' parameter.")]), [])
  else
    let query := (args.get "query").getD ""
    let count := _parse_int (args.get "count") cfg.DEFAULT_SEARCH_COUNT
    let lang := (args.get "lang").getD cfg.DEFAULT_LANGUAGE
    let country := (args.get "country").getD cfg.DEFAULT_COUNTRY
    let fields := _parse_fields (args.get "fields")
    let call :=
      if pyTruthyList fields then
        ScraperCall.searchGetFields query fields count lang country
      else
        ScraperCall.searchAnalyze query count lang country
    ((match scraper call with
      | Except.ok data => Except.ok (200, [("data", data)])
      | Except.error e => Except.error e), [call])

/-- `src/api/index.py::_handle_reviews`. -/
def _handle_reviews (cfg : Config) (scraper : Scraper) (args : Args) :
    Except PyError HandlerResult × List ScraperCall :=
  if pyTruthyStr (args.get "appId") = false then
    (Except.ok (400, [("error", Json.str "Missing required 'appId' parameter.")]), [])
  else
    let app_id := (args.get "appId").getD ""
    let count := _parse_int (args.get "count") cfg.DEFAULT_REVIEWS_COUNT
    let lang := (args.get "lang").getD cfg.DEFAULT_LANGUAGE
    let country := (args.get "country").getD cfg.DEFAULT_COUNTRY
    let sort := (args.get "sort").getD cfg.DEFAULT_REVIEWS_SORT
    let fields := _parse_fields (args.get "fields")
    let call :=
      if pyTruthyList fields then
        ScraperCall.reviewsGetFields app_id fields count lang country sort
      else
        ScraperCall.reviewsAnalyze app_id count lang country sort
    ((match scraper call with
      | Except.ok data => Except.ok (200, [("data", data)])
      | Except.error e => Except.error e), [call])

/-- `src/api/index.py::_handle_developer`. -/
def _handle_developer (cfg : Config) (scraper : Scraper) (args : Args) :
    Except PyError HandlerResult × List ScraperCall :=
  if pyTruthyStr (args.get "developerId") = false then
    (Except.ok (400, [("error", Json.str "Missing required 'developerId' parameter.")]), [])
  else
    let developer_id := (args.get "developerId").getD ""
    let count := _parse_int (args.get "count") cfg.DEFAULT_DEVELOPER_COUNT
    let lang := (args.get "lang").getD cfg.DEFAULT_LANGUAGE
    let country := (args.get "country").getD cfg.DEFAULT_COUNTRY
    let fields := _parse_fields (args.get "fields")
    let call :=
      if pyTruthyList fields then
        ScraperCall.developerGetFields developer_id fields count lang country
      else
        ScraperCall.developerAnalyze developer_id count lang country
    ((match scraper call with
      | Except.ok data => Except.ok (200, [("data", data)])
      | Except.error e => Except.error e), [call])

/-- `src/api/index.py::ACTION_MAP`: the fixed action table, as a lookup
from the lowered action string. -/
def ACTION_MAP (cfg : Config) (scraper : Scraper) (action : String) :
    Option (Args → Except PyError HandlerResult × List ScraperCall) :=
  if action = "app" then some (_handle_app cfg scraper)
  else if action = "search" then some (_handle_search cfg scraper)
  else if action = "reviews" then some (_handle_reviews cfg scraper)
  else if action = "developer" then some (_handle_developer cfg scraper)
  else none

/-- An incoming request: HTTP method plus query arguments. -/
structure Request where
  method : String
  args : Args

/-- A response: numeric status, JSON body (pre-serialization) and
headers. -/
structure Response where
  status : Int
  body : JsonDict
  headers : List (String × String)

/-- `src/api/index.py::_build_response` (the body is kept structured;
`json.dumps` serialization is out of scope). -/
def _build_response (status : Int) (payload : JsonDict)
    (extra_headers : List (String × String)) : Response :=
  { status := status
    body := payload
    headers := [("Content-Type", "application/json"),
                ("Access-Control-Allow-Origin", "*")] ++ extra_headers }

/-- The `try/except` around the handler invocation in
`src/api/index.py::handler`: a normal return is forwarded,
`GPlayScraperError` becomes 502, any other exception becomes 500. -/
def _wrap_result :
    Except PyError HandlerResult × List ScraperCall → Response × List ScraperCall
  | (Except.ok (status, payload), calls) => (_build_response status payload [], calls)
  | (Except.error (PyError.gplayScraperError msg), calls) =>
      (_build_response 502 [("error", Json.str msg)] [], calls)
  | (Except.error (PyError.otherError msg), calls) =>
      (_build_response 500 [("error", Json.str "Unexpected server error."),
                            ("details", Json.str msg)] [], calls)

/-- `src/api/index.py::handler` — the dispatch entry point, returning
the response together with the list of scraper calls issued. -/
def handler (cfg : Config) (scraper : Scraper) (request : Request) :
    Response × List ScraperCall :=
  if request.method = "OPTIONS" then
    (_build_response 204 []
      [("Access-Control-Allow-Origin", "*"),
       ("Access-Control-Allow-Methods", "GET, OPTIONS"),
       ("Access-Control-Allow-Headers", "*")], [])
  else if pyLower ((request.args.get "action").getD "") = "" then
    (_build_response 400 [("error", Json.str "Missing 'action' query parameter.")] [], [])
  else
    match ACTION_MAP cfg scraper (pyLower ((request.args.get "action").getD "")) with
    | none =>
        (_build_response 400
          [("error", Json.str ("Unsupported action '" ++
              pyLower ((request.args.get "action").getD "") ++ "'."))] [], [])
    | some fn => _wrap_result (fn request.args)

-- Concrete instances used by witnesses and counterexamples.

/-- A concrete configuration with pairwise distinct defaults. -/
def exampleConfig : Config :=
  ⟨"en", "us", 30, 50, 40, "NEWEST"⟩

/-- A stub scraper that always succeeds with a fixed payload. -/
def scraperOk (payload : Json) : Scraper :=
  fun _ => Except.ok payload

/-- A stub scraper that always raises `GPlayScraperError`. -/
def scraperGplayFail (msg : String) : Scraper :=
  fun _ => Except.error (PyError.gplayScraperError msg)

/-- A stub scraper that always raises a non-domain exception. -/
def scraperOtherFail (msg : String) : Scraper :=
  fun _ => Except.error (PyError.otherError msg)

/-- The outcome-to-status mapping at the dispatch boundary: the
dispatch issued exactly one scraper call, and that call's outcome
determines the response — 200 `{data: payload}` on success, 502
`{error: message}` on `GPlayScraperError`, and 500 with the generic
body plus details on any other exception. -/
def outcomeMapped (scraper : Scraper) (out : Response × List ScraperCall) : Prop :=
  ∃ c, out.2 = [c]
    ∧ (∀ d, scraper c = Except.ok d →
        out.1 = _build_response 200 [("data", d)] [])
    ∧ (∀ msg, scraper c = Except.error (PyError.gplayScraperError msg) →
        out.1 = _build_response 502 [("error", Json.str msg)] [])
    ∧ (∀ msg, scraper c = Except.error (PyError.otherError msg) →
        out.1 = _build_response 500
          [("error", Json.str "Unexpected server error."),
           ("details", Json.str msg)] [])

/-!
Interactive front end (`src/examples/ui_app.py`).  The widget layer is
out of scope; the embedded parts are the field splitting, the "Get
Fields" button handlers (which guard on an empty fields list before
starting a run), and the `_run_async` worker bridge.
-/

/-- An observable step taken by a UI event handler: either a blocking
informational dialog (`messagebox.showinfo`) or the start of a
background run wrapping one scraper call (`self._run_async(...)`). -/
inductive UIAction where
  | showInfo (title msg : String)
  | startRun (call : ScraperCall)
deriving DecidableEq

/-- `GPlayScraperUI._split_fields`: split the raw entry text on commas,
strip each segment, drop falsy (empty) segments. -/
def GPlayScraperUI._split_fields (raw : String) : List String :=
  ((pySplit raw ',').map pyStrip).filter (fun t => t ≠ "")

/-- `GPlayScraperUI._handle_app_fields`: `if not fields:` show the
"Fields Required" info box and return, else start an
`app_get_fields` run. -/
def GPlayScraperUI._handle_app_fields (app_id : String) (fields : List String)
    (lang country : String) (assets : Option String) : List UIAction :=
  if pyTruthyList fields = false then
    [UIAction.showInfo "Fields Required" "Please provide at least one field name."]
  else
    [UIAction.startRun (ScraperCall.appGetFields app_id fields lang country assets)]

/-- `GPlayScraperUI._handle_search_fields`. -/
def GPlayScraperUI._handle_search_fields (query : String) (fields : List String)
    (count : Int) (lang country : String) : List UIAction :=
  if pyTruthyList fields = false then
    [UIAction.showInfo "Fields Required" "Please provide at least one field name."]
  else
    [UIAction.startRun (ScraperCall.searchGetFields query fields count lang country)]

/-- `GPlayScraperUI._handle_reviews_fields`. -/
def GPlayScraperUI._handle_reviews_fields (app_id : String) (fields : List String)
    (count : Int) (lang country sort : String) : List UIAction :=
  if pyTruthyList fields = false then
    [UIAction.showInfo "Fields Required" "Please provide at least one field name."]
  else
    [UIAction.startRun (ScraperCall.reviewsGetFields app_id fields count lang country sort)]

/-- `GPlayScraperUI._handle_developer_fields`. -/
def GPlayScraperUI._handle_developer_fields (dev_id : String) (fields : List String)
    (count : Int) (lang country : String) : List UIAction :=
  if pyTruthyList fields = false then
    [UIAction.showInfo "Fields Required" "Please provide at least one field name."]
  else
    [UIAction.startRun (ScraperCall.developerGetFields dev_id fields count lang country)]

/-- A callback scheduled on the Tk main loop by the worker of
`GPlayScraperUI._run_async` via `self.root.after(0, ...)`.

The error branches enqueue
`lambda: self._handle_error(f"... {exc}")`: the lambda closes over the
variable `exc` of the worker frame and formats the message only when it
is called.  `excCell` records the contents of that captured cell at the
time the Tk main loop delivers the callback; `none` means the variable
is unbound then. -/
inductive TkCallback where
  | errorCb (pre : String) (excCell : Option String)
  | successCb (data : Json)

/-- The body of `task` inside `GPlayScraperUI._run_async`, given the
outcome of `func(*args)`: the list of callbacks it schedules on the Tk
main loop, in order.

Per Python semantics (PEP 3110), `except GPlayScraperError as exc:`
implicitly runs `exc = None; del exc` when the except block exits, so
the cell the error lambda captured is unbound by the time the scheduled
callback is delivered on the main loop (delivery happens after the
worker statement completes): `excCell` is `none` in both error
branches.  The success branch closes over the ordinary local `data`,
which is never deleted. -/
def runAsyncTask (outcome : Except PyError Json) : List TkCallback :=
  match outcome with
  | Except.error (PyError.gplayScraperError _) =>
      [TkCallback.errorCb "Scraper error: " none]
  | Except.error (PyError.otherError _) =>
      [TkCallback.errorCb "Unexpected error: " none]
  | Except.ok data => [TkCallback.successCb data]

/-- What the presentation context observes when a delivered callback
completes normally: an error dialog (`_handle_error` →
`messagebox.showerror`) or the rendered result (`_handle_success`). -/
inductive Delivered where
  | errorNotification (msg : String)
  | successDisplay (data : Json)

/-- Delivering one scheduled callback on the Tk main loop: evaluating
the error lambda formats the f-string, which reads the captured `exc`
cell; an unbound cell raises `NameError` (modelled as `Except.error`),
so no notification is shown for that run. -/
def deliver : TkCallback → Except String Delivered
  | TkCallback.errorCb pre cell =>
      match cell with
      | some m => Except.ok (Delivered.errorNotification (pre ++ m))
      | none => Except.error "NameError: free variable exc referenced before assignment"
  | TkCallback.successCb d => Except.ok (Delivered.successDisplay d)


/-!  Helper lemmas about the embedded primitives and the dispatch. -/

lemma pyLowerChar_idem (c : Char) : pyLowerChar (pyLowerChar c) = pyLowerChar c := by
  unfold pyLowerChar
  by_cases h : 65 ≤ c.toNat ∧ c.toNat ≤ 90
  · rw [if_pos h]
    obtain ⟨h1, h2⟩ := h
    interval_cases hc : c.toNat
    all_goals decide
  · rw [if_neg h, if_neg h]

lemma pyLower_idem (s : String) : pyLower (pyLower s) = pyLower s := by
  unfold pyLower
  have h : (String.mk (s.toList.map pyLowerChar)).toList = s.toList.map pyLowerChar := rfl
  rw [h, List.map_map]
  congr 1
  apply List.map_congr_left
  intro c _
  exact pyLowerChar_idem c

lemma pyInt_empty : pyInt "" = none := rfl

lemma _parse_int_of_pyInt (s : String) (n d : Int) (h : pyInt s = some n) :
    _parse_int (some s) d = n := by
  have hne : s ≠ "" := by
    intro he
    rw [he, pyInt_empty] at h
    exact Option.noConfusion h
  unfold _parse_int
  dsimp only
  rw [if_neg hne, h]

lemma _parse_int_of_fail (s : String) (d : Int) (h : pyInt s = none) :
    _parse_int (some s) d = d := by
  by_cases hne : s = ""
  · rw [hne]
    rfl
  · unfold _parse_int
    dsimp only
    rw [if_neg hne, h]

lemma Args.get_set_self (a : Args) (k v : String) : (a.set k v).get k = some v := by
  simp [Args.set]

lemma Args.get_set_ne (a : Args) (k v q : String) (h : q ≠ k) :
    (a.set k v).get q = a.get q := by
  simp [Args.set, h]

lemma handler_dispatch (cfg : Config) (scraper : Scraper) (m : String) (args : Args)
    (fn : Args → Except PyError HandlerResult × List ScraperCall)
    (hm : m ≠ "OPTIONS")
    (hne : pyLower ((args.get "action").getD "") ≠ "")
    (hfn : ACTION_MAP cfg scraper (pyLower ((args.get "action").getD "")) = some fn) :
    handler cfg scraper ⟨m, args⟩ = _wrap_result (fn args) := by
  unfold handler
  dsimp only
  rw [if_neg hm, if_neg hne, hfn]

lemma handler_dispatch_app (cfg : Config) (scraper : Scraper) (m : String) (args : Args)
    (hm : m ≠ "OPTIONS")
    (ha : pyLower ((args.get "action").getD "") = "app") :
    handler cfg scraper ⟨m, args⟩ = _wrap_result (_handle_app cfg scraper args) :=
  handler_dispatch cfg scraper m args _ hm
    (by rw [ha]; decide) (by rw [ha]; rfl)

lemma handler_dispatch_search (cfg : Config) (scraper : Scraper) (m : String) (args : Args)
    (hm : m ≠ "OPTIONS")
    (ha : pyLower ((args.get "action").getD "") = "search") :
    handler cfg scraper ⟨m, args⟩ = _wrap_result (_handle_search cfg scraper args) :=
  handler_dispatch cfg scraper m args _ hm
    (by rw [ha]; decide) (by rw [ha]; rfl)

lemma handler_dispatch_reviews (cfg : Config) (scraper : Scraper) (m : String) (args : Args)
    (hm : m ≠ "OPTIONS")
    (ha : pyLower ((args.get "action").getD "") = "reviews") :
    handler cfg scraper ⟨m, args⟩ = _wrap_result (_handle_reviews cfg scraper args) :=
  handler_dispatch cfg scraper m args _ hm
    (by rw [ha]; decide) (by rw [ha]; rfl)

lemma handler_dispatch_developer (cfg : Config) (scraper : Scraper) (m : String) (args : Args)
    (hm : m ≠ "OPTIONS")
    (ha : pyLower ((args.get "action").getD "") = "developer") :
    handler cfg scraper ⟨m, args⟩ = _wrap_result (_handle_developer cfg scraper args) :=
  handler_dispatch cfg scraper m args _ hm
    (by rw [ha]; decide) (by rw [ha]; rfl)

lemma handler_missing_action (cfg : Config) (scraper : Scraper) (m : String) (args : Args)
    (hm : m ≠ "OPTIONS")
    (ha : pyLower ((args.get "action").getD "") = "") :
    handler cfg scraper ⟨m, args⟩ =
      (_build_response 400 [("error", Json.str "Missing 'action' query parameter.")] [], []) := by
  unfold handler
  dsimp only
  rw [if_neg hm, if_pos ha]

lemma ACTION_MAP_none (cfg : Config) (scraper : Scraper) (a : String)
    (h1 : a ≠ "app") (h2 : a ≠ "search") (h3 : a ≠ "reviews") (h4 : a ≠ "developer") :
    ACTION_MAP cfg scraper a = none := by
  unfold ACTION_MAP
  rw [if_neg h1, if_neg h2, if_neg h3, if_neg h4]

lemma handler_unknown_action (cfg : Config) (scraper : Scraper) (m : String) (args : Args)
    (hm : m ≠ "OPTIONS")
    (hne : pyLower ((args.get "action").getD "") ≠ "")
    (hnone : ACTION_MAP cfg scraper (pyLower ((args.get "action").getD "")) = none) :
    handler cfg scraper ⟨m, args⟩ =
      (_build_response 400
        [("error", Json.str ("Unsupported action '" ++
            pyLower ((args.get "action").getD "") ++ "'."))] [], []) := by
  unfold handler
  dsimp only
  rw [if_neg hm, if_neg hne, hnone]

lemma _handle_app_missing (cfg : Config) (scraper : Scraper) (args : Args)
    (h : pyTruthyStr (args.get "appId") = false) :
    _handle_app cfg scraper args =
      (Except.ok (400, [("error", Json.str "Missing required 'appId' parameter.")]), []) := by
  unfold _handle_app
  rw [if_pos h]

lemma _handle_search_missing (cfg : Config) (scraper : Scraper) (args : Args)
    (h : pyTruthyStr (args.get "query") = false) :
    _handle_search cfg scraper args =
      (Except.ok (400, [("error", Json.str "Missing required 'query' parameter.")]), []) := by
  unfold _handle_search
  rw [if_pos h]

lemma _handle_reviews_missing (cfg : Config) (scraper : Scraper) (args : Args)
    (h : pyTruthyStr (args.get "appId") = false) :
    _handle_reviews cfg scraper args =
      (Except.ok (400, [("error", Json.str "Missing required 'appId' parameter.")]), []) := by
  unfold _handle_reviews
  rw [if_pos h]

lemma _handle_developer_missing (cfg : Config) (scraper : Scraper) (args : Args)
    (h : pyTruthyStr (args.get "developerId") = false) :
    _handle_developer cfg scraper args =
      (Except.ok (400, [("error", Json.str "Missing required 'developerId' parameter.")]), []) := by
  unfold _handle_developer
  rw [if_pos h]

lemma _handle_app_run (cfg : Config) (scraper : Scraper) (args : Args)
    (h : pyTruthyStr (args.get "appId") = true) :
    ∃ call,
      _handle_app cfg scraper args =
        ((match scraper call with
          | Except.ok data => Except.ok (200, [("data", data)])
          | Except.error e => Except.error e), [call])
      ∧ call = (if pyTruthyList (_parse_fields (args.get "fields")) then
            ScraperCall.appGetFields ((args.get "appId").getD "")
              (_parse_fields (args.get "fields"))
              ((args.get "lang").getD cfg.DEFAULT_LANGUAGE)
              ((args.get "country").getD cfg.DEFAULT_COUNTRY)
              (pyOrNone (args.get "assets"))
          else
            ScraperCall.appAnalyze ((args.get "appId").getD "")
              ((args.get "lang").getD cfg.DEFAULT_LANGUAGE)
              ((args.get "country").getD cfg.DEFAULT_COUNTRY)
              (pyOrNone (args.get "assets"))) := by
  refine ⟨_, ?_, rfl⟩
  unfold _handle_app
  rw [if_neg (by rw [h]; simp)]

lemma _handle_search_run (cfg : Config) (scraper : Scraper) (args : Args)
    (h : pyTruthyStr (args.get "query") = true) :
    ∃ call,
      _handle_search cfg scraper args =
        ((match scraper call with
          | Except.ok data => Except.ok (200, [("data", data)])
          | Except.error e => Except.error e), [call])
      ∧ call = (if pyTruthyList (_parse_fields (args.get "fields")) then
            ScraperCall.searchGetFields ((args.get "query").getD "")
              (_parse_fields (args.get "fields"))
              (_parse_int (args.get "count") cfg.DEFAULT_SEARCH_COUNT)
              ((args.get "lang").getD cfg.DEFAULT_LANGUAGE)
              ((args.get "country").getD cfg.DEFAULT_COUNTRY)
          else
            ScraperCall.searchAnalyze ((args.get "query").getD "")
              (_parse_int (args.get "count") cfg.DEFAULT_SEARCH_COUNT)
              ((args.get "lang").getD cfg.DEFAULT_LANGUAGE)
              ((args.get "country").getD cfg.DEFAULT_COUNTRY)) := by
  refine ⟨_, ?_, rfl⟩
  unfold _handle_search
  rw [if_neg (by rw [h]; simp)]

lemma _handle_reviews_run (cfg : Config) (scraper : Scraper) (args : Args)
    (h : pyTruthyStr (args.get "appId") = true) :
    ∃ call,
      _handle_reviews cfg scraper args =
        ((match scraper call with
          | Except.ok data => Except.ok (200, [("data", data)])
          | Except.error e => Except.error e), [call])
      ∧ call = (if pyTruthyList (_parse_fields (args.get "fields")) then
            ScraperCall.reviewsGetFields ((args.get "appId").getD "")
              (_parse_fields (args.get "fields"))
              (_parse_int (args.get "count") cfg.DEFAULT_REVIEWS_COUNT)
              ((args.get "lang").getD cfg.DEFAULT_LANGUAGE)
              ((args.get "country").getD cfg.DEFAULT_COUNTRY)
              ((args.get "sort").getD cfg.DEFAULT_REVIEWS_SORT)
          else
            ScraperCall.reviewsAnalyze ((args.get "appId").getD "")
              (_parse_int (args.get "count") cfg.DEFAULT_REVIEWS_COUNT)
              ((args.get "lang").getD cfg.DEFAULT_LANGUAGE)
              ((args.get "country").getD cfg.DEFAULT_COUNTRY)
              ((args.get "sort").getD cfg.DEFAULT_REVIEWS_SORT)) := by
  refine ⟨_, ?_, rfl⟩
  unfold _handle_reviews
  rw [if_neg (by rw [h]; simp)]

lemma _handle_developer_run (cfg : Config) (scraper : Scraper) (args : Args)
    (h : pyTruthyStr (args.get "developerId") = true) :
    ∃ call,
      _handle_developer cfg scraper args =
        ((match scraper call with
          | Except.ok data => Except.ok (200, [("data", data)])
          | Except.error e => Except.error e), [call])
      ∧ call = (if pyTruthyList (_parse_fields (args.get "fields")) then
            ScraperCall.developerGetFields ((args.get "developerId").getD "")
              (_parse_fields (args.get "fields"))
              (_parse_int (args.get "count") cfg.DEFAULT_DEVELOPER_COUNT)
              ((args.get "lang").getD cfg.DEFAULT_LANGUAGE)
              ((args.get "country").getD cfg.DEFAULT_COUNTRY)
          else
            ScraperCall.developerAnalyze ((args.get "developerId").getD "")
              (_parse_int (args.get "count") cfg.DEFAULT_DEVELOPER_COUNT)
              ((args.get "lang").getD cfg.DEFAULT_LANGUAGE)
              ((args.get "country").getD cfg.DEFAULT_COUNTRY)) := by
  refine ⟨_, ?_, rfl⟩
  unfold _handle_developer
  rw [if_neg (by rw [h]; simp)]

lemma _handle_app_congr (cfg : Config) (scraper : Scraper) (a b : Args)
    (h1 : a.get "appId" = b.get "appId") (h2 : a.get "lang" = b.get "lang")
    (h3 : a.get "country" = b.get "country") (h4 : a.get "assets" = b.get "assets")
    (h5 : a.get "fields" = b.get "fields") :
    _handle_app cfg scraper a = _handle_app cfg scraper b := by
  unfold _handle_app
  rw [h1, h2, h3, h4, h5]

lemma _handle_search_congr (cfg : Config) (scraper : Scraper) (a b : Args)
    (h1 : a.get "query" = b.get "query") (h2 : a.get "count" = b.get "count")
    (h3 : a.get "lang" = b.get "lang") (h4 : a.get "country" = b.get "country")
    (h5 : a.get "fields" = b.get "fields") :
    _handle_search cfg scraper a = _handle_search cfg scraper b := by
  unfold _handle_search
  rw [h1, h2, h3, h4, h5]

lemma _handle_reviews_congr (cfg : Config) (scraper : Scraper) (a b : Args)
    (h1 : a.get "appId" = b.get "appId") (h2 : a.get "count" = b.get "count")
    (h3 : a.get "lang" = b.get "lang") (h4 : a.get "country" = b.get "country")
    (h5 : a.get "sort" = b.get "sort") (h6 : a.get "fields" = b.get "fields") :
    _handle_reviews cfg scraper a = _handle_reviews cfg scraper b := by
  unfold _handle_reviews
  rw [h1, h2, h3, h4, h5, h6]

lemma _handle_developer_congr (cfg : Config) (scraper : Scraper) (a b : Args)
    (h1 : a.get "developerId" = b.get "developerId") (h2 : a.get "count" = b.get "count")
    (h3 : a.get "lang" = b.get "lang") (h4 : a.get "country" = b.get "country")
    (h5 : a.get "fields" = b.get "fields") :
    _handle_developer cfg scraper a = _handle_developer cfg scraper b := by
  unfold _handle_developer
  rw [h1, h2, h3, h4, h5]

lemma Args.get_set_action_pair (args : Args) (s t q : String) (h : q ≠ "action") :
    (Args.set args "action" s).get q = (Args.set args "action" t).get q := by
  rw [Args.get_set_ne args "action" s q h, Args.get_set_ne args "action" t q h]

lemma handler_action_lower (cfg : Config) (scraper : Scraper) (m : String)
    (args : Args) (s : String) :
    handler cfg scraper ⟨m, Args.set args "action" s⟩ =
      handler cfg scraper ⟨m, Args.set args "action" (pyLower s)⟩ := by
  by_cases hm : m = "OPTIONS"
  · unfold handler
    dsimp only
    rw [if_pos hm, if_pos hm]
  · unfold handler
    dsimp only
    rw [if_neg hm, if_neg hm]
    have e1 : ((Args.set args "action" s).get "action").getD "" = s := by
      rw [Args.get_set_self]
      rfl
    have e2 : ((Args.set args "action" (pyLower s)).get "action").getD "" = pyLower s := by
      rw [Args.get_set_self]
      rfl
    rw [e1, e2, pyLower_idem]
    by_cases h0 : pyLower s = ""
    · rw [if_pos h0, if_pos h0]
    · rw [if_neg h0, if_neg h0]
      cases hAM : ACTION_MAP cfg scraper (pyLower s) with
      | none => rfl
      | some fn =>
          dsimp only
          unfold ACTION_MAP at hAM
          split_ifs at hAM with c1 c2 c3 c4
          · cases hAM
            exact congrArg _wrap_result (_handle_app_congr cfg scraper _ _
              (Args.get_set_action_pair args s (pyLower s) "appId" (by decide))
              (Args.get_set_action_pair args s (pyLower s) "lang" (by decide))
              (Args.get_set_action_pair args s (pyLower s) "country" (by decide))
              (Args.get_set_action_pair args s (pyLower s) "assets" (by decide))
              (Args.get_set_action_pair args s (pyLower s) "fields" (by decide)))
          · cases hAM
            exact congrArg _wrap_result (_handle_search_congr cfg scraper _ _
              (Args.get_set_action_pair args s (pyLower s) "query" (by decide))
              (Args.get_set_action_pair args s (pyLower s) "count" (by decide))
              (Args.get_set_action_pair args s (pyLower s) "lang" (by decide))
              (Args.get_set_action_pair args s (pyLower s) "country" (by decide))
              (Args.get_set_action_pair args s (pyLower s) "fields" (by decide)))
          · cases hAM
            exact congrArg _wrap_result (_handle_reviews_congr cfg scraper _ _
              (Args.get_set_action_pair args s (pyLower s) "appId" (by decide))
              (Args.get_set_action_pair args s (pyLower s) "count" (by decide))
              (Args.get_set_action_pair args s (pyLower s) "lang" (by decide))
              (Args.get_set_action_pair args s (pyLower s) "country" (by decide))
              (Args.get_set_action_pair args s (pyLower s) "sort" (by decide))
              (Args.get_set_action_pair args s (pyLower s) "fields" (by decide)))
          · cases hAM
            exact congrArg _wrap_result (_handle_developer_congr cfg scraper _ _
              (Args.get_set_action_pair args s (pyLower s) "developerId" (by decide))
              (Args.get_set_action_pair args s (pyLower s) "count" (by decide))
              (Args.get_set_action_pair args s (pyLower s) "lang" (by decide))
              (Args.get_set_action_pair args s (pyLower s) "country" (by decide))
              (Args.get_set_action_pair args s (pyLower s) "fields" (by decide)))

lemma _wrap_result_snd (r : Except PyError HandlerResult) (calls : List ScraperCall) :
    (_wrap_result (r, calls)).2 = calls := by
  match r with
  | Except.ok (st, p) => rfl
  | Except.error (PyError.gplayScraperError msg) => rfl
  | Except.error (PyError.otherError msg) => rfl

lemma pyTruthyList_of_ne {α : Type} (l : List α) (h : l ≠ []) :
    pyTruthyList l = true := by
  cases l with
  | nil => exact absurd rfl h
  | cons a t => rfl

lemma pyTruthyList_of_eq {α : Type} (l : List α) (h : l = []) :
    pyTruthyList l = false := by
  rw [h]
  rfl

/-- Claim C1: for every action in {app, search, reviews, developer} and
every request in which that action's required identifier (`appId` for
app and reviews, `query` for search, `developerId` for developer) is
absent or empty, dispatch returns the 400 invalid-input response whose
body carries the missing-required-parameter message, and issues no
scraper call. -/
theorem C1_missing_required_identifier (cfg : Config) (scraper : Scraper)
    (m : String) (args : Args) (hm : m ≠ "OPTIONS") :
    (pyLower ((args.get "action").getD "") = "app" →
      pyTruthyStr (args.get "appId") = false →
      handler cfg scraper ⟨m, args⟩ =
        (_build_response 400
          [("error", Json.str "Missing required 'appId' parameter.")] [], []))
    ∧ (pyLower ((args.get "action").getD "") = "search" →
      pyTruthyStr (args.get "query") = false →
      handler cfg scraper ⟨m, args⟩ =
        (_build_response 400
          [("error", Json.str "Missing required 'query' parameter.")] [], []))
    ∧ (pyLower ((args.get "action").getD "") = "reviews" →
      pyTruthyStr (args.get "appId") = false →
      handler cfg scraper ⟨m, args⟩ =
        (_build_response 400
          [("error", Json.str "Missing required 'appId' parameter.")] [], []))
    ∧ (pyLower ((args.get "action").getD "") = "developer" →
      pyTruthyStr (args.get "developerId") = false →
      handler cfg scraper ⟨m, args⟩ =
        (_build_response 400
          [("error", Json.str "Missing required 'developerId' parameter.")] [], [])) := by
  refine ⟨fun ha h => ?_, fun ha h => ?_, fun ha h => ?_, fun ha h => ?_⟩
  · rw [handler_dispatch_app cfg scraper m args hm ha,
      _handle_app_missing cfg scraper args h]
    rfl
  · rw [handler_dispatch_search cfg scraper m args hm ha,
      _handle_search_missing cfg scraper args h]
    rfl
  · rw [handler_dispatch_reviews cfg scraper m args hm ha,
      _handle_reviews_missing cfg scraper args h]
    rfl
  · rw [handler_dispatch_developer cfg scraper m args hm ha,
      _handle_developer_missing cfg scraper args h]
    rfl

/-- Witness for C1, at the app action with `appId` absent. -/
theorem C1_witness :
    ("GET" : String) ≠ "OPTIONS"
    ∧ pyLower (((Args.ofList [("action", "APP")]).get "action").getD "") = "app"
    ∧ pyTruthyStr ((Args.ofList [("action", "APP")]).get "appId") = false
    ∧ handler exampleConfig (scraperOk Json.null)
        ⟨"GET", Args.ofList [("action", "APP")]⟩ =
      (_build_response 400
        [("error", Json.str "Missing required 'appId' parameter.")] [], []) :=
  ⟨by decide, by decide, by decide,
    (C1_missing_required_identifier exampleConfig (scraperOk Json.null) "GET"
      (Args.ofList [("action", "APP")]) (by decide)).1 (by decide) (by decide)⟩

lemma routing_facts_of_call (fl : List String) (c cg ca : ScraperCall)
    (hCall : c = if pyTruthyList fl then cg else ca)
    (hg1 : cg.isGetFields = true) (hg2 : cg.fieldsArg = some fl)
    (ha1 : ca.isGetFields = false) (ha2 : ca.fieldsArg = none) :
    (c.isGetFields = true ↔ fl ≠ [])
    ∧ c.fieldsArg = (if fl = [] then none else some fl) := by
  by_cases hfl : fl = []
  · rw [pyTruthyList_of_eq fl hfl, if_neg (by simp)] at hCall
    subst hCall
    refine ⟨?_, by rw [ha2, if_pos hfl]⟩
    rw [ha1]
    simp [hfl]
  · rw [pyTruthyList_of_ne fl hfl, if_pos rfl] at hCall
    subst hCall
    refine ⟨?_, by rw [hg2, if_neg hfl]⟩
    rw [hg1]
    simp [hfl]

/-- Claim C2: for every action whose required identifier is present,
dispatch issues exactly one scraper call; that call is the selective
(get-fields) operation exactly when the normalized fields list is
non-empty — in which case it carries that list — and the full-analysis
operation exactly when the fields parameter is absent or normalizes to
the empty list. -/
theorem C2_fields_routing (cfg : Config) (scraper : Scraper)
    (m : String) (args : Args) (hm : m ≠ "OPTIONS") :
    (pyLower ((args.get "action").getD "") = "app" →
      pyTruthyStr (args.get "appId") = true →
      ∃ c, (handler cfg scraper ⟨m, args⟩).2 = [c]
        ∧ (c.isGetFields = true ↔ _parse_fields (args.get "fields") ≠ [])
        ∧ c.fieldsArg = (if _parse_fields (args.get "fields") = [] then none
            else some (_parse_fields (args.get "fields"))))
    ∧ (pyLower ((args.get "action").getD "") = "search" →
      pyTruthyStr (args.get "query") = true →
      ∃ c, (handler cfg scraper ⟨m, args⟩).2 = [c]
        ∧ (c.isGetFields = true ↔ _parse_fields (args.get "fields") ≠ [])
        ∧ c.fieldsArg = (if _parse_fields (args.get "fields") = [] then none
            else some (_parse_fields (args.get "fields"))))
    ∧ (pyLower ((args.get "action").getD "") = "reviews" →
      pyTruthyStr (args.get "appId") = true →
      ∃ c, (handler cfg scraper ⟨m, args⟩).2 = [c]
        ∧ (c.isGetFields = true ↔ _parse_fields (args.get "fields") ≠ [])
        ∧ c.fieldsArg = (if _parse_fields (args.get "fields") = [] then none
            else some (_parse_fields (args.get "fields"))))
    ∧ (pyLower ((args.get "action").getD "") = "developer" →
      pyTruthyStr (args.get "developerId") = true →
      ∃ c, (handler cfg scraper ⟨m, args⟩).2 = [c]
        ∧ (c.isGetFields = true ↔ _parse_fields (args.get "fields") ≠ [])
        ∧ c.fieldsArg = (if _parse_fields (args.get "fields") = [] then none
            else some (_parse_fields (args.get "fields")))) := by
  refine ⟨fun ha h => ?_, fun ha h => ?_, fun ha h => ?_, fun ha h => ?_⟩
  · obtain ⟨call, hEq, hCall⟩ := _handle_app_run cfg scraper args h
    refine ⟨call, ?_, ?_⟩
    · rw [handler_dispatch_app cfg scraper m args hm ha, hEq, _wrap_result_snd]
    · exact routing_facts_of_call (_parse_fields (args.get "fields")) call _ _ hCall
        rfl rfl rfl rfl
  · obtain ⟨call, hEq, hCall⟩ := _handle_search_run cfg scraper args h
    refine ⟨call, ?_, ?_⟩
    · rw [handler_dispatch_search cfg scraper m args hm ha, hEq, _wrap_result_snd]
    · exact routing_facts_of_call (_parse_fields (args.get "fields")) call _ _ hCall
        rfl rfl rfl rfl
  · obtain ⟨call, hEq, hCall⟩ := _handle_reviews_run cfg scraper args h
    refine ⟨call, ?_, ?_⟩
    · rw [handler_dispatch_reviews cfg scraper m args hm ha, hEq, _wrap_result_snd]
    · exact routing_facts_of_call (_parse_fields (args.get "fields")) call _ _ hCall
        rfl rfl rfl rfl
  · obtain ⟨call, hEq, hCall⟩ := _handle_developer_run cfg scraper args h
    refine ⟨call, ?_, ?_⟩
    · rw [handler_dispatch_developer cfg scraper m args hm ha, hEq, _wrap_result_snd]
    · exact routing_facts_of_call (_parse_fields (args.get "fields")) call _ _ hCall
        rfl rfl rfl rfl

/-- Witness for C2, at the reviews action with `fields = "score, text"`. -/
theorem C2_witness :
    ("GET" : String) ≠ "OPTIONS"
    ∧ pyLower (((Args.ofList [("action", "reviews"), ("appId", "com.whatsapp"),
        ("fields", "score, text")]).get "action").getD "") = "reviews"
    ∧ pyTruthyStr ((Args.ofList [("action", "reviews"), ("appId", "com.whatsapp"),
        ("fields", "score, text")]).get "appId") = true
    ∧ (∃ c, (handler exampleConfig (scraperOk Json.null)
        ⟨"GET", Args.ofList [("action", "reviews"), ("appId", "com.whatsapp"),
          ("fields", "score, text")]⟩).2 = [c]
        ∧ (c.isGetFields = true ↔ _parse_fields ((Args.ofList [("action", "reviews"),
            ("appId", "com.whatsapp"), ("fields", "score, text")]).get "fields") ≠ [])
        ∧ c.fieldsArg = (if _parse_fields ((Args.ofList [("action", "reviews"),
            ("appId", "com.whatsapp"), ("fields", "score, text")]).get "fields") = []
            then none
            else some (_parse_fields ((Args.ofList [("action", "reviews"),
              ("appId", "com.whatsapp"), ("fields", "score, text")]).get "fields")))) :=
  ⟨by decide, by decide, by decide,
    (C2_fields_routing exampleConfig (scraperOk Json.null) "GET"
      (Args.ofList [("action", "reviews"), ("appId", "com.whatsapp"),
        ("fields", "score, text")]) (by decide)).2.2.1 (by decide) (by decide)⟩

lemma outcomeMapped_of_run (scraper : Scraper) (call : ScraperCall) :
    outcomeMapped scraper (_wrap_result ((match scraper call with
      | Except.ok data => Except.ok (200, [("data", data)])
      | Except.error e => Except.error e), [call])) := by
  refine ⟨call, _wrap_result_snd _ _, ?_, ?_, ?_⟩
  · intro d hd
    rw [hd]
    rfl
  · intro msg hmsg
    rw [hmsg]
    rfl
  · intro msg hmsg
    rw [hmsg]
    rfl

/-- Claim C3: the synchronous handler is total on its embedded state
space and maps every terminal situation to the documented status: a
missing action yields 400, an unknown action yields 400, and — for
every action with its required identifier present — the single issued
scraper call's outcome maps to 200 `{data}` on success, 502 `{error}`
on a domain error, and 500 with the generic body on any other
exception; no exception escapes the boundary (scraper errors are
consumed into responses). -/
theorem C3_status_mapping (cfg : Config) (scraper : Scraper)
    (m : String) (args : Args) (hm : m ≠ "OPTIONS") :
    (pyLower ((args.get "action").getD "") = "" →
      handler cfg scraper ⟨m, args⟩ =
        (_build_response 400
          [("error", Json.str "Missing 'action' query parameter.")] [], []))
    ∧ (∀ a, pyLower ((args.get "action").getD "") = a → a ≠ "" →
        ACTION_MAP cfg scraper a = none →
        handler cfg scraper ⟨m, args⟩ =
          (_build_response 400
            [("error", Json.str ("Unsupported action '" ++ a ++ "'."))] [], []))
    ∧ (pyLower ((args.get "action").getD "") = "app" →
        pyTruthyStr (args.get "appId") = true →
        outcomeMapped scraper (handler cfg scraper ⟨m, args⟩))
    ∧ (pyLower ((args.get "action").getD "") = "search" →
        pyTruthyStr (args.get "query") = true →
        outcomeMapped scraper (handler cfg scraper ⟨m, args⟩))
    ∧ (pyLower ((args.get "action").getD "") = "reviews" →
        pyTruthyStr (args.get "appId") = true →
        outcomeMapped scraper (handler cfg scraper ⟨m, args⟩))
    ∧ (pyLower ((args.get "action").getD "") = "developer" →
        pyTruthyStr (args.get "developerId") = true →
        outcomeMapped scraper (handler cfg scraper ⟨m, args⟩)) := by
  refine ⟨fun ha => handler_missing_action cfg scraper m args hm ha,
    fun a ha hne hnone => ?_, fun ha h => ?_, fun ha h => ?_, fun ha h => ?_,
    fun ha h => ?_⟩
  · have h1 : pyLower ((args.get "action").getD "") ≠ "" := by
      rw [ha]
      exact hne
    have h2 : ACTION_MAP cfg scraper (pyLower ((args.get "action").getD "")) = none := by
      rw [ha]
      exact hnone
    rw [handler_unknown_action cfg scraper m args hm h1 h2, ha]
  · obtain ⟨call, hEq, _⟩ := _handle_app_run cfg scraper args h
    rw [handler_dispatch_app cfg scraper m args hm ha, hEq]
    exact outcomeMapped_of_run scraper call
  · obtain ⟨call, hEq, _⟩ := _handle_search_run cfg scraper args h
    rw [handler_dispatch_search cfg scraper m args hm ha, hEq]
    exact outcomeMapped_of_run scraper call
  · obtain ⟨call, hEq, _⟩ := _handle_reviews_run cfg scraper args h
    rw [handler_dispatch_reviews cfg scraper m args hm ha, hEq]
    exact outcomeMapped_of_run scraper call
  · obtain ⟨call, hEq, _⟩ := _handle_developer_run cfg scraper args h
    rw [handler_dispatch_developer cfg scraper m args hm ha, hEq]
    exact outcomeMapped_of_run scraper call

/-- Witness for C3, at the search action with a scraper that raises the
domain error. -/
theorem C3_witness :
    ("GET" : String) ≠ "OPTIONS"
    ∧ pyLower (((Args.ofList [("action", "search"), ("query", "productivity")]).get
        "action").getD "") = "search"
    ∧ pyTruthyStr ((Args.ofList [("action", "search"),
        ("query", "productivity")]).get "query") = true
    ∧ outcomeMapped (scraperGplayFail "rate limited")
        (handler exampleConfig (scraperGplayFail "rate limited")
          ⟨"GET", Args.ofList [("action", "search"), ("query", "productivity")]⟩) :=
  ⟨by decide, by decide, by decide,
    (C3_status_mapping exampleConfig (scraperGplayFail "rate limited") "GET"
      (Args.ofList [("action", "search"), ("query", "productivity")])
      (by decide)).2.2.2.1 (by decide) (by decide)⟩

lemma _parse_fields_some_eq (s : String) :
    _parse_fields (some s) = ((pySplit s ',').map pyStrip).filter (fun t => t ≠ "") := by
  unfold _parse_fields
  dsimp only
  by_cases h : s = ""
  · subst h
    decide
  · rw [if_neg h]

/-- Counterexample for C4: on `"a,, b ,a"` the parser does NOT return
`["a","b"]` — duplicates are preserved, so the result is
`["a","b","a"]`. -/
theorem C4_counterexample : _parse_fields (some "a,, b ,a") ≠ ["a", "b"] := by
  decide

/-- Claim C4 (amended): field-list parsing splits the raw string on
commas, trims each segment, drops segments that are empty after
trimming, preserves first-seen order and duplicates, and returns the
empty sequence for absent input; in particular, on `"a,, b ,a"` it
returns `["a","b","a"]`. -/
theorem C4_fields_parsing_amended :
    _parse_fields none = []
    ∧ (∀ s, _parse_fields (some s) =
        ((pySplit s ',').map pyStrip).filter (fun t => t ≠ ""))
    ∧ (∀ s, List.Sublist (_parse_fields (some s)) ((pySplit s ',').map pyStrip))
    ∧ (∀ s t, t ∈ _parse_fields (some s) ↔ t ∈ (pySplit s ',').map pyStrip ∧ t ≠ "")
    ∧ _parse_fields (some "a,, b ,a") = ["a", "b", "a"] := by
  refine ⟨rfl, _parse_fields_some_eq, fun s => ?_, fun s t => ?_, by decide⟩
  · rw [_parse_fields_some_eq]
    exact List.filter_sublist _
  · rw [_parse_fields_some_eq]
    simp [List.mem_filter]

/-- Claim C5: count parsing is total — a valid integer literal parses
to its value, and absence, emptiness or a parse failure all fall back
to the supplied action-specific default. -/
theorem C5_count_parsing (d : Int) :
    _parse_int none d = d
    ∧ _parse_int (some "") d = d
    ∧ _parse_int (some "20") d = 20
    ∧ _parse_int (some "abc") d = d
    ∧ (∀ s n, pyInt s = some n → _parse_int (some s) d = n)
    ∧ (∀ s, pyInt s = none → _parse_int (some s) d = d) :=
  ⟨rfl, rfl, rfl, rfl, fun s n h => _parse_int_of_pyInt s n d h,
    fun s h => _parse_int_of_fail s d h⟩

/-- Witness for C5, at a negative literal. -/
theorem C5_witness :
    pyInt "-7" = some (-7) ∧ _parse_int (some "-7") 30 = -7 :=
  ⟨by decide, (C5_count_parsing 30).2.2.2.2.1 "-7" (-7) (by decide)⟩

/-- Claim C8, evaluated on the code: the worker of `_run_async` always
schedules exactly one completion callback, but on any error outcome the
scheduled callback captures the except-variable cell that Python clears
when the except block exits, so delivering it raises `NameError`
instead of completing the error notification; only the success callback
completes its notification. -/
theorem C8_worker_callback_bug :
    (∀ out : Except PyError Json, (runAsyncTask out).length = 1)
    ∧ runAsyncTask (Except.error (PyError.gplayScraperError "network down"))
        = [TkCallback.errorCb "Scraper error: " none]
    ∧ deliver (TkCallback.errorCb "Scraper error: " none)
        = Except.error "NameError: free variable exc referenced before assignment"
    ∧ (∀ d, deliver (TkCallback.successCb d) = Except.ok (Delivered.successDisplay d)) := by
  refine ⟨fun out => ?_, rfl, rfl, fun d => rfl⟩
  rcases out with e | d
  · cases e <;> rfl
  · rfl

/-- Counterexample for C6: the empty action string lowercases to a
string outside the action set, yet dispatch answers with the
missing-action message, not an unsupported-action message. -/
theorem C6_counterexample :
    pyLower (((Args.ofList [("action", "")]).get "action").getD "") = ""
    ∧ ("" : String) ∉ (["app", "search", "reviews", "developer"] : List String)
    ∧ (handler exampleConfig (scraperOk Json.null)
        ⟨"GET", Args.ofList [("action", "")]⟩).1.body
        = [("error", Json.str "Missing 'action' query parameter.")]
    ∧ "Missing 'action' query parameter." ≠ "Unsupported action ''." :=
  ⟨by decide, by decide, rfl, by decide⟩

/-- Claim C6 (amended): action lookup is case-insensitive — every
action string routes exactly as its lowercase form; every NON-EMPTY
string whose lowercase form is outside {app, search, reviews,
developer} yields the 400 unsupported-action response with no handler
invoked and no scraper call; an absent or empty action instead yields
the 400 missing-action response, also with no scraper call. -/
theorem C6_action_lookup_amended (cfg : Config) (scraper : Scraper)
    (m : String) (args : Args) (s : String) :
    (handler cfg scraper ⟨m, Args.set args "action" s⟩ =
      handler cfg scraper ⟨m, Args.set args "action" (pyLower s)⟩)
    ∧ (m ≠ "OPTIONS" → ∀ a, pyLower ((args.get "action").getD "") = a → a ≠ "" →
        a ∉ (["app", "search", "reviews", "developer"] : List String) →
        handler cfg scraper ⟨m, args⟩ =
          (_build_response 400
            [("error", Json.str ("Unsupported action '" ++ a ++ "'."))] [], []))
    ∧ (m ≠ "OPTIONS" → pyLower ((args.get "action").getD "") = "" →
        handler cfg scraper ⟨m, args⟩ =
          (_build_response 400
            [("error", Json.str "Missing 'action' query parameter.")] [], [])) := by
  refine ⟨handler_action_lower cfg scraper m args s, fun hm a ha hne hmem => ?_,
    fun hm ha => handler_missing_action cfg scraper m args hm ha⟩
  have h1 : a ≠ "app" := fun h => hmem (by rw [h]; decide)
  have h2 : a ≠ "search" := fun h => hmem (by rw [h]; decide)
  have h3 : a ≠ "reviews" := fun h => hmem (by rw [h]; decide)
  have h4 : a ≠ "developer" := fun h => hmem (by rw [h]; decide)
  have hnone : ACTION_MAP cfg scraper (pyLower ((args.get "action").getD "")) = none := by
    rw [ha]
    exact ACTION_MAP_none cfg scraper a h1 h2 h3 h4
  have hne2 : pyLower ((args.get "action").getD "") ≠ "" := by
    rw [ha]
    exact hne
  rw [handler_unknown_action cfg scraper m args hm hne2 hnone, ha]

/-- Witness for C6: `"APP"` routes exactly as `"app"`, and the unknown
action `"foo"` yields the unsupported-action response. -/
theorem C6_witness :
    (handler exampleConfig (scraperOk Json.null)
        ⟨"GET", Args.set (Args.ofList [("action", "FOO")]) "action" "APP"⟩ =
      handler exampleConfig (scraperOk Json.null)
        ⟨"GET", Args.set (Args.ofList [("action", "FOO")]) "action" (pyLower "APP")⟩)
    ∧ ("GET" : String) ≠ "OPTIONS"
    ∧ pyLower (((Args.ofList [("action", "FOO")]).get "action").getD "") = "foo"
    ∧ ("foo" : String) ≠ ""
    ∧ ("foo" : String) ∉ (["app", "search", "reviews", "developer"] : List String)
    ∧ handler exampleConfig (scraperOk Json.null)
        ⟨"GET", Args.ofList [("action", "FOO")]⟩ =
      (_build_response 400
        [("error", Json.str ("Unsupported action '" ++ "foo" ++ "'."))] [], []) :=
  ⟨(C6_action_lookup_amended exampleConfig (scraperOk Json.null) "GET"
      (Args.ofList [("action", "FOO")]) "APP").1,
    by decide, by decide, by decide, by decide,
    (C6_action_lookup_amended exampleConfig (scraperOk Json.null) "GET"
      (Args.ofList [("action", "FOO")]) "APP").2.1 (by decide) "foo"
      (by decide) (by decide) (by decide)⟩

/-- Counterexample for C7: with `lang` explicitly present but empty,
the app action forwards the empty string to the scraper instead of the
declared default language. -/
theorem C7_counterexample :
    (Args.ofList [("action", "app"), ("appId", "com.example"), ("lang", "")]).get "lang"
      = some ""
    ∧ (handler exampleConfig (scraperOk Json.null)
        ⟨"GET", Args.ofList [("action", "app"), ("appId", "com.example"),
          ("lang", "")]⟩).2
      = [ScraperCall.appAnalyze "com.example" "" "us" none]
    ∧ ("" : String) ≠ exampleConfig.DEFAULT_LANGUAGE :=
  ⟨by decide, by decide, by decide⟩

/-- Claim C7 (amended): the string parameters with declared defaults
(language, country, sort order) are replaced by their defaults only
when ABSENT; an explicitly present value — including the empty string —
is forwarded unchanged.  The asset-size parameter alone treats an
explicitly empty value like absence: both yield null (no filter). -/
theorem C7_defaulting_amended (cfg : Config) (scraper : Scraper)
    (m : String) (args : Args) (hm : m ≠ "OPTIONS") :
    (pyLower ((args.get "action").getD "") = "app" →
      pyTruthyStr (args.get "appId") = true →
      ∃ c, (handler cfg scraper ⟨m, args⟩).2 = [c]
        ∧ (args.get "lang" = none → c.langArg = cfg.DEFAULT_LANGUAGE)
        ∧ (∀ v, args.get "lang" = some v → c.langArg = v)
        ∧ (args.get "country" = none → c.countryArg = cfg.DEFAULT_COUNTRY)
        ∧ (∀ v, args.get "country" = some v → c.countryArg = v)
        ∧ (args.get "assets" = none → c.assetsArg = some none)
        ∧ (args.get "assets" = some "" → c.assetsArg = some none)
        ∧ (∀ v, args.get "assets" = some v → v ≠ "" → c.assetsArg = some (some v)))
    ∧ (pyLower ((args.get "action").getD "") = "search" →
      pyTruthyStr (args.get "query") = true →
      ∃ c, (handler cfg scraper ⟨m, args⟩).2 = [c]
        ∧ (args.get "lang" = none → c.langArg = cfg.DEFAULT_LANGUAGE)
        ∧ (∀ v, args.get "lang" = some v → c.langArg = v)
        ∧ (args.get "country" = none → c.countryArg = cfg.DEFAULT_COUNTRY)
        ∧ (∀ v, args.get "country" = some v → c.countryArg = v))
    ∧ (pyLower ((args.get "action").getD "") = "reviews" →
      pyTruthyStr (args.get "appId") = true →
      ∃ c, (handler cfg scraper ⟨m, args⟩).2 = [c]
        ∧ (args.get "lang" = none → c.langArg = cfg.DEFAULT_LANGUAGE)
        ∧ (∀ v, args.get "lang" = some v → c.langArg = v)
        ∧ (args.get "country" = none → c.countryArg = cfg.DEFAULT_COUNTRY)
        ∧ (∀ v, args.get "country" = some v → c.countryArg = v)
        ∧ (args.get "sort" = none → c.sortArg = some cfg.DEFAULT_REVIEWS_SORT)
        ∧ (∀ v, args.get "sort" = some v → c.sortArg = some v))
    ∧ (pyLower ((args.get "action").getD "") = "developer" →
      pyTruthyStr (args.get "developerId") = true →
      ∃ c, (handler cfg scraper ⟨m, args⟩).2 = [c]
        ∧ (args.get "lang" = none → c.langArg = cfg.DEFAULT_LANGUAGE)
        ∧ (∀ v, args.get "lang" = some v → c.langArg = v)
        ∧ (args.get "country" = none → c.countryArg = cfg.DEFAULT_COUNTRY)
        ∧ (∀ v, args.get "country" = some v → c.countryArg = v)) := by
  refine ⟨fun ha h => ?_, fun ha h => ?_, fun ha h => ?_, fun ha h => ?_⟩
  · obtain ⟨call, hEq, hCall⟩ := _handle_app_run cfg scraper args h
    have hlang : call.langArg = (args.get "lang").getD cfg.DEFAULT_LANGUAGE := by
      rw [hCall]
      by_cases hf : pyTruthyList (_parse_fields (args.get "fields")) = true
      · rw [if_pos hf]
        rfl
      · rw [if_neg hf]
        rfl
    have hcountry : call.countryArg = (args.get "country").getD cfg.DEFAULT_COUNTRY := by
      rw [hCall]
      by_cases hf : pyTruthyList (_parse_fields (args.get "fields")) = true
      · rw [if_pos hf]
        rfl
      · rw [if_neg hf]
        rfl
    have hassets : call.assetsArg = some (pyOrNone (args.get "assets")) := by
      rw [hCall]
      by_cases hf : pyTruthyList (_parse_fields (args.get "fields")) = true
      · rw [if_pos hf]
        rfl
      · rw [if_neg hf]
        rfl
    refine ⟨call, ?_, fun hl => ?_, fun v hl => ?_, fun hc => ?_, fun v hc => ?_,
      fun hA => ?_, fun hA => ?_, fun v hA hv => ?_⟩
    · rw [handler_dispatch_app cfg scraper m args hm ha, hEq, _wrap_result_snd]
    · rw [hlang, hl]
      rfl
    · rw [hlang, hl]
      rfl
    · rw [hcountry, hc]
      rfl
    · rw [hcountry, hc]
      rfl
    · rw [hassets, hA]
      rfl
    · rw [hassets, hA]
      rfl
    · rw [hassets, hA]
      simp [pyOrNone, hv]
  · obtain ⟨call, hEq, hCall⟩ := _handle_search_run cfg scraper args h
    have hlang : call.langArg = (args.get "lang").getD cfg.DEFAULT_LANGUAGE := by
      rw [hCall]
      by_cases hf : pyTruthyList (_parse_fields (args.get "fields")) = true
      · rw [if_pos hf]
        rfl
      · rw [if_neg hf]
        rfl
    have hcountry : call.countryArg = (args.get "country").getD cfg.DEFAULT_COUNTRY := by
      rw [hCall]
      by_cases hf : pyTruthyList (_parse_fields (args.get "fields")) = true
      · rw [if_pos hf]
        rfl
      · rw [if_neg hf]
        rfl
    refine ⟨call, ?_, fun hl => ?_, fun v hl => ?_, fun hc => ?_, fun v hc => ?_⟩
    · rw [handler_dispatch_search cfg scraper m args hm ha, hEq, _wrap_result_snd]
    · rw [hlang, hl]
      rfl
    · rw [hlang, hl]
      rfl
    · rw [hcountry, hc]
      rfl
    · rw [hcountry, hc]
      rfl
  · obtain ⟨call, hEq, hCall⟩ := _handle_reviews_run cfg scraper args h
    have hlang : call.langArg = (args.get "lang").getD cfg.DEFAULT_LANGUAGE := by
      rw [hCall]
      by_cases hf : pyTruthyList (_parse_fields (args.get "fields")) = true
      · rw [if_pos hf]
        rfl
      · rw [if_neg hf]
        rfl
    have hcountry : call.countryArg = (args.get "country").getD cfg.DEFAULT_COUNTRY := by
      rw [hCall]
      by_cases hf : pyTruthyList (_parse_fields (args.get "fields")) = true
      · rw [if_pos hf]
        rfl
      · rw [if_neg hf]
        rfl
    have hsort : call.sortArg = some ((args.get "sort").getD cfg.DEFAULT_REVIEWS_SORT) := by
      rw [hCall]
      by_cases hf : pyTruthyList (_parse_fields (args.get "fields")) = true
      · rw [if_pos hf]
        rfl
      · rw [if_neg hf]
        rfl
    refine ⟨call, ?_, fun hl => ?_, fun v hl => ?_, fun hc => ?_, fun v hc => ?_,
      fun hs => ?_, fun v hs => ?_⟩
    · rw [handler_dispatch_reviews cfg scraper m args hm ha, hEq, _wrap_result_snd]
    · rw [hlang, hl]
      rfl
    · rw [hlang, hl]
      rfl
    · rw [hcountry, hc]
      rfl
    · rw [hcountry, hc]
      rfl
    · rw [hsort, hs]
      rfl
    · rw [hsort, hs]
      rfl
  · obtain ⟨call, hEq, hCall⟩ := _handle_developer_run cfg scraper args h
    have hlang : call.langArg = (args.get "lang").getD cfg.DEFAULT_LANGUAGE := by
      rw [hCall]
      by_cases hf : pyTruthyList (_parse_fields (args.get "fields")) = true
      · rw [if_pos hf]
        rfl
      · rw [if_neg hf]
        rfl
    have hcountry : call.countryArg = (args.get "country").getD cfg.DEFAULT_COUNTRY := by
      rw [hCall]
      by_cases hf : pyTruthyList (_parse_fields (args.get "fields")) = true
      · rw [if_pos hf]
        rfl
      · rw [if_neg hf]
        rfl
    refine ⟨call, ?_, fun hl => ?_, fun v hl => ?_, fun hc => ?_, fun v hc => ?_⟩
    · rw [handler_dispatch_developer cfg scraper m args hm ha, hEq, _wrap_result_snd]
    · rw [hlang, hl]
      rfl
    · rw [hlang, hl]
      rfl
    · rw [hcountry, hc]
      rfl
    · rw [hcountry, hc]
      rfl

/-- Witness for C7, at the app action with `lang` absent and `assets`
explicitly empty. -/
theorem C7_witness :
    ("GET" : String) ≠ "OPTIONS"
    ∧ pyLower (((Args.ofList [("action", "app"), ("appId", "com.example"),
        ("assets", "")]).get "action").getD "") = "app"
    ∧ pyTruthyStr ((Args.ofList [("action", "app"), ("appId", "com.example"),
        ("assets", "")]).get "appId") = true
    ∧ (∃ c, (handler exampleConfig (scraperOk Json.null)
        ⟨"GET", Args.ofList [("action", "app"), ("appId", "com.example"),
          ("assets", "")]⟩).2 = [c]
        ∧ ((Args.ofList [("action", "app"), ("appId", "com.example"),
            ("assets", "")]).get "lang" = none →
            c.langArg = exampleConfig.DEFAULT_LANGUAGE)
        ∧ (∀ v, (Args.ofList [("action", "app"), ("appId", "com.example"),
            ("assets", "")]).get "lang" = some v → c.langArg = v)
        ∧ ((Args.ofList [("action", "app"), ("appId", "com.example"),
            ("assets", "")]).get "country" = none →
            c.countryArg = exampleConfig.DEFAULT_COUNTRY)
        ∧ (∀ v, (Args.ofList [("action", "app"), ("appId", "com.example"),
            ("assets", "")]).get "country" = some v → c.countryArg = v)
        ∧ ((Args.ofList [("action", "app"), ("appId", "com.example"),
            ("assets", "")]).get "assets" = none → c.assetsArg = some none)
        ∧ ((Args.ofList [("action", "app"), ("appId", "com.example"),
            ("assets", "")]).get "assets" = some "" → c.assetsArg = some none)
        ∧ (∀ v, (Args.ofList [("action", "app"), ("appId", "com.example"),
            ("assets", "")]).get "assets" = some v → v ≠ "" →
            c.assetsArg = some (some v))) :=
  ⟨by decide, by decide, by decide,
    (C7_defaulting_amended exampleConfig (scraperOk Json.null) "GET"
      (Args.ofList [("action", "app"), ("appId", "com.example"), ("assets", "")])
      (by decide)).1 (by decide) (by decide)⟩

/-- Claim C9: the dispatch layer applies no range validation to the
count parameter — for every raw string that parses as an integer
(zero, negative or arbitrarily large included), the parsed value is
forwarded unchanged in the single scraper call of the search, reviews
and developer actions. -/
theorem C9_count_forwarded (cfg : Config) (scraper : Scraper) (m : String)
    (args : Args) (s : String) (n : Int) (hm : m ≠ "OPTIONS")
    (hc : args.get "count" = some s) (hn : pyInt s = some n) :
    (pyLower ((args.get "action").getD "") = "search" →
      pyTruthyStr (args.get "query") = true →
      (handler cfg scraper ⟨m, args⟩).2.map ScraperCall.countArg = [some n])
    ∧ (pyLower ((args.get "action").getD "") = "reviews" →
      pyTruthyStr (args.get "appId") = true →
      (handler cfg scraper ⟨m, args⟩).2.map ScraperCall.countArg = [some n])
    ∧ (pyLower ((args.get "action").getD "") = "developer" →
      pyTruthyStr (args.get "developerId") = true →
      (handler cfg scraper ⟨m, args⟩).2.map ScraperCall.countArg = [some n]) := by
  refine ⟨fun ha h => ?_, fun ha h => ?_, fun ha h => ?_⟩
  · obtain ⟨call, hEq, hCall⟩ := _handle_search_run cfg scraper args h
    have hcount : _parse_int (args.get "count") cfg.DEFAULT_SEARCH_COUNT = n := by
      rw [hc]
      exact _parse_int_of_pyInt s n _ hn
    rw [handler_dispatch_search cfg scraper m args hm ha, hEq, _wrap_result_snd, hCall]
    by_cases hf : pyTruthyList (_parse_fields (args.get "fields")) = true
    · rw [if_pos hf]
      simp [ScraperCall.countArg, hcount]
    · rw [if_neg hf]
      simp [ScraperCall.countArg, hcount]
  · obtain ⟨call, hEq, hCall⟩ := _handle_reviews_run cfg scraper args h
    have hcount : _parse_int (args.get "count") cfg.DEFAULT_REVIEWS_COUNT = n := by
      rw [hc]
      exact _parse_int_of_pyInt s n _ hn
    rw [handler_dispatch_reviews cfg scraper m args hm ha, hEq, _wrap_result_snd, hCall]
    by_cases hf : pyTruthyList (_parse_fields (args.get "fields")) = true
    · rw [if_pos hf]
      simp [ScraperCall.countArg, hcount]
    · rw [if_neg hf]
      simp [ScraperCall.countArg, hcount]
  · obtain ⟨call, hEq, hCall⟩ := _handle_developer_run cfg scraper args h
    have hcount : _parse_int (args.get "count") cfg.DEFAULT_DEVELOPER_COUNT = n := by
      rw [hc]
      exact _parse_int_of_pyInt s n _ hn
    rw [handler_dispatch_developer cfg scraper m args hm ha, hEq, _wrap_result_snd, hCall]
    by_cases hf : pyTruthyList (_parse_fields (args.get "fields")) = true
    · rw [if_pos hf]
      simp [ScraperCall.countArg, hcount]
    · rw [if_neg hf]
      simp [ScraperCall.countArg, hcount]

/-- Witness for C9: a negative count `"-5"` is forwarded unchanged to
the search call. -/
theorem C9_witness :
    ("GET" : String) ≠ "OPTIONS"
    ∧ (Args.ofList [("action", "search"), ("query", "games"),
        ("count", "-5")]).get "count" = some "-5"
    ∧ pyInt "-5" = some (-5)
    ∧ pyLower (((Args.ofList [("action", "search"), ("query", "games"),
        ("count", "-5")]).get "action").getD "") = "search"
    ∧ pyTruthyStr ((Args.ofList [("action", "search"), ("query", "games"),
        ("count", "-5")]).get "query") = true
    ∧ (handler exampleConfig (scraperOk Json.null)
        ⟨"GET", Args.ofList [("action", "search"), ("query", "games"),
          ("count", "-5")]⟩).2.map ScraperCall.countArg = [some (-5)] :=
  ⟨by decide, by decide, by decide, by decide, by decide,
    (C9_count_forwarded exampleConfig (scraperOk Json.null) "GET"
      (Args.ofList [("action", "search"), ("query", "games"), ("count", "-5")])
      "-5" (-5) (by decide) (by decide) (by decide)).1 (by decide) (by decide)⟩

/-- Claim C10: in the interactive front end, every Get Fields
invocation whose fields entry splits to the empty list shows the
informational "Fields Required" notification and starts no run — no
scraper operation is invoked and there is no fallback to the
full-analysis call; moreover, any input whose comma segments are all
whitespace splits to the empty list. -/
theorem C10_ui_empty_fields (app_id query dev_id : String) (count : Int)
    (lang country sort : String) (assets : Option String) (raw : String)
    (h : GPlayScraperUI._split_fields raw = []) :
    GPlayScraperUI._handle_app_fields app_id
        (GPlayScraperUI._split_fields raw) lang country assets
      = [UIAction.showInfo "Fields Required" "Please provide at least one field name."]
    ∧ GPlayScraperUI._handle_search_fields query
        (GPlayScraperUI._split_fields raw) count lang country
      = [UIAction.showInfo "Fields Required" "Please provide at least one field name."]
    ∧ GPlayScraperUI._handle_reviews_fields app_id
        (GPlayScraperUI._split_fields raw) count lang country sort
      = [UIAction.showInfo "Fields Required" "Please provide at least one field name."]
    ∧ GPlayScraperUI._handle_developer_fields dev_id
        (GPlayScraperUI._split_fields raw) count lang country
      = [UIAction.showInfo "Fields Required" "Please provide at least one field name."]
    ∧ (∀ raw2, (∀ seg ∈ pySplit raw2 ',', pyStrip seg = "") →
        GPlayScraperUI._split_fields raw2 = []) := by
  refine ⟨?_, ?_, ?_, ?_, fun raw2 hall => ?_⟩
  · rw [h]
    rfl
  · rw [h]
    rfl
  · rw [h]
    rfl
  · rw [h]
    rfl
  · unfold GPlayScraperUI._split_fields
    rw [List.filter_eq_nil_iff]
    intro t ht
    obtain ⟨seg, hseg, rfl⟩ := List.mem_map.mp ht
    simp [hall seg hseg]

/-- Witness for C10, at the whitespace-and-commas-only input `" , ,, "`. -/
theorem C10_witness :
    GPlayScraperUI._split_fields " , ,, " = []
    ∧ GPlayScraperUI._handle_app_fields "com.whatsapp"
        (GPlayScraperUI._split_fields " , ,, ") "en" "us" (some "SMALL")
      = [UIAction.showInfo "Fields Required" "Please provide at least one field name."]
    ∧ GPlayScraperUI._handle_search_fields "productivity"
        (GPlayScraperUI._split_fields " , ,, ") 30 "en" "us"
      = [UIAction.showInfo "Fields Required" "Please provide at least one field name."] :=
  ⟨by decide,
    (C10_ui_empty_fields "com.whatsapp" "productivity" "dev" 30 "en" "us" "NEWEST"
      (some "SMALL") " , ,, " (by decide)).1,
    (C10_ui_empty_fields "com.whatsapp" "productivity" "dev" 30 "en" "us" "NEWEST"
      (some "SMALL") " , ,, " (by decide)).2.1⟩
